import Mathlib

/-!
Shallow embedding of the resilient OTLP export wrapper ("ExportGate"), the
background reachability prober, and the transport-resolution logic of this
repository (src/main.py, src/test.py, src/new.py), together with theorems
settling the specification claims.

Durations and timestamps (Python floats in the source) are modelled as
rationals; the wall clock is passed in explicitly (the source reads
`time.time()` twice in `export`, once before the gate check and once in the
failure branch, so `export` takes two time parameters).  The outcome of the
underlying exporter call is passed in as a value of `InnerResult`.
-/

/-- Outcome of a call into the inner (wrapped) exporter: either it returns a
result (Python: normal return) or it raises (Python: `except Exception`). -/
inductive InnerResult (α : Type) where
  | ok (r : α)
  | err
deriving DecidableEq, Repr

/-- State of `SafeOTLPLogExporter` from src/main.py (identical backoff state
in `SafeOTLPExporter` of src/test.py): `reported` is `self._reported`,
`backoff_initial` is `self._backoff_initial`, `backoff` is `self._backoff`,
`max_backoff` is `self._max_backoff`, `next_try` is `self._next_try`. -/
structure SafeOTLPLogExporter where
  reported : Bool
  backoff_initial : ℚ
  backoff : ℚ
  max_backoff : ℚ
  next_try : ℚ
deriving DecidableEq, Repr

/-- Construction of the wrapper state (src/main.py lines 77-82): the latch is
clear, the current backoff starts at the initial backoff, and `_next_try` is
`0.0` (immediately eligible). -/
def SafeOTLPLogExporter.construct (initial_backoff max_backoff : ℚ) :
    SafeOTLPLogExporter :=
  { reported := false
    backoff_initial := initial_backoff
    backoff := initial_backoff
    max_backoff := max_backoff
    next_try := 0 }

/-- Result of one `export` call: the new wrapper state, the value returned to
the caller (`none` is Python `None`, i.e. the suppressed result), whether the
inner exporter's `export` was invoked, and whether the one-shot first-failure
report was emitted during this call. -/
structure ExportStep (α : Type) where
  gate : SafeOTLPLogExporter
  result : Option α
  innerCalled : Bool
  reportEmitted : Bool
deriving DecidableEq, Repr

/-- The body of `SafeOTLPLogExporter.export` (src/main.py lines 102-127).
`t0` is the `time.time()` read before the gate check and `t1` the
`time.time()` read inside the failure branch; `outcome` is what
`self._inner.export(records)` does when invoked.  If `t0 < next_try` the call
is suppressed: `None` is returned and nothing is mutated.  On failure the
first-failure report is emitted iff the latch was clear, `next_try` becomes
`t1 + backoff`, and the backoff doubles capped at `max_backoff`.  On success
the backoff resets to `backoff_initial`, `next_try` resets to `0.0`, and the
inner result is returned. -/
def SafeOTLPLogExporter.export {α : Type} (g : SafeOTLPLogExporter)
    (t0 t1 : ℚ) (outcome : InnerResult α) : ExportStep α :=
  if t0 < g.next_try then
    { gate := g, result := none, innerCalled := false, reportEmitted := false }
  else
    match outcome with
    | .err =>
        { gate :=
            { g with
              reported := true
              next_try := t1 + g.backoff
              backoff := min (g.backoff * 2) g.max_backoff }
          result := none
          innerCalled := true
          reportEmitted := !g.reported }
    | .ok r =>
        { gate := { g with backoff := g.backoff_initial, next_try := 0 }
          result := some r
          innerCalled := true
          reportEmitted := false }

/-- The body of `SafeOTLPLogExporter.shutdown` (src/main.py lines 129-133):
delegates to the inner exporter; an exception is caught and reported through
the one-shot latch (`_report_once`).  Returns the new state and whether the
report was emitted. -/
def SafeOTLPLogExporter.shutdown (g : SafeOTLPLogExporter)
    (outcome : InnerResult Unit) : SafeOTLPLogExporter × Bool :=
  match outcome with
  | .ok _ => (g, false)
  | .err => ({ g with reported := true }, !g.reported)

/-- The body of `SafeOTLPLogExporter.force_flush` (src/main.py lines
135-142): delegates to the inner exporter; an exception is caught, reported
through the one-shot latch, and converted into a `false` return.  Returns the
new state, whether the report was emitted, and the boolean flush result. -/
def SafeOTLPLogExporter.force_flush (g : SafeOTLPLogExporter)
    (outcome : InnerResult Bool) : SafeOTLPLogExporter × Bool × Bool :=
  match outcome with
  | .ok r => (g, false, r)
  | .err => ({ g with reported := true }, !g.reported, false)

/-- The body of `SafeOTLPExporter.export` from src/test.py (lines 129-143),
over the same state: the gate check and the failure branch are identical to
`SafeOTLPLogExporter.export` of src/main.py, but there is no success
branch — on success the code returns the inner result directly from the
`try` block, mutating no state field (and `_backoff_initial`, though stored
by `__init__` at src/test.py line 113, is never read again in that file). -/
def SafeOTLPExporter.export {α : Type} (g : SafeOTLPLogExporter)
    (t0 t1 : ℚ) (outcome : InnerResult α) : ExportStep α :=
  if t0 < g.next_try then
    { gate := g, result := none, innerCalled := false, reportEmitted := false }
  else
    match outcome with
    | .err =>
        { gate :=
            { g with
              reported := true
              next_try := t1 + g.backoff
              backoff := min (g.backoff * 2) g.max_backoff }
          result := none
          innerCalled := true
          reportEmitted := !g.reported }
    | .ok r =>
        { gate := g
          result := some r
          innerCalled := true
          reportEmitted := false }

/-- Trace of `export` calls: folds a list of `(t0, t1, outcome)` triples
through `SafeOTLPLogExporter.export`, returning the final state and how many
times the one-shot first-failure report was emitted. -/
def runExports (g : SafeOTLPLogExporter) :
    List (ℚ × ℚ × InnerResult Unit) → SafeOTLPLogExporter × ℕ
  | [] => (g, 0)
  | (t0, t1, o) :: rest =>
      ((runExports (g.export t0 t1 o).gate rest).1,
       (if (g.export t0 t1 o).reportEmitted then 1 else 0)
         + (runExports (g.export t0 t1 o).gate rest).2)

/-- One call into the wrapper over its lifetime: a periodic `export` with its
two clock readings and the inner outcome, a `shutdown`, or a `force_flush`. -/
inductive GateEvent where
  | exportCall (t0 t1 : ℚ) (outcome : InnerResult Unit)
  | shutdownCall (outcome : InnerResult Unit)
  | flushCall (outcome : InnerResult Bool)
deriving DecidableEq, Repr

/-- Applies one `GateEvent` to the wrapper state; the boolean says whether
this call emitted the one-shot report (via `_report_once`). -/
def stepEvent (g : SafeOTLPLogExporter) : GateEvent → SafeOTLPLogExporter × Bool
  | .exportCall t0 t1 o =>
      ((g.export t0 t1 o).gate, (g.export t0 t1 o).reportEmitted)
  | .shutdownCall o => g.shutdown o
  | .flushCall o => ((g.force_flush o).1, (g.force_flush o).2.1)

/-- Trace of arbitrary interleaved `export` / `shutdown` / `force_flush`
calls, counting emitted one-shot reports. -/
def runEvents (g : SafeOTLPLogExporter) :
    List GateEvent → SafeOTLPLogExporter × ℕ
  | [] => (g, 0)
  | e :: rest =>
      ((runEvents (stepEvent g e).1 rest).1,
       (if (stepEvent g e).2 then 1 else 0)
         + (runEvents (stepEvent g e).1 rest).2)

/-- State after `n` consecutive failing `export` calls, the `k`-th call
(0-based) made with clock readings `(ts k).1` and `(ts k).2`.  The calls are
required (in the theorems) to pass the backoff gate, so each reaches the
inner exporter. -/
def failRun (g : SafeOTLPLogExporter) (ts : ℕ → ℚ × ℚ) :
    ℕ → SafeOTLPLogExporter
  | 0 => g
  | n + 1 =>
      ((failRun g ts n).export (ts n).1 (ts n).2
        (InnerResult.err (α := Unit))).gate

/-- Result of `urlparse` as used by the repository: the pieces of the URL the
code inspects (`scheme`, `hostname`, `port`). -/
structure ParsedUrl where
  scheme : String
  hostname : Option String
  port : Option ℕ
deriving DecidableEq, Repr

/-- Port derivation of `_is_endpoint_reachable` (src/main.py line 149):
`parsed.port or (4318 if parsed.scheme in ("http", "https") else None)`. -/
def derivedPort (u : ParsedUrl) : Option ℕ :=
  match u.port with
  | some p => some p
  | none => if u.scheme = "http" ∨ u.scheme = "https" then some 4318 else none

/-- The body of `_is_endpoint_reachable` (src/main.py lines 145-156).  The
TCP connect is modelled by the oracle `net : host → port → Bool` (a raised
exception and a refused connection both yield `false` in the source).  When
no port can be derived the function returns `false` without touching the
network. -/
def is_endpoint_reachable (u : ParsedUrl) (net : String → ℕ → Bool) : Bool :=
  let host := u.hostname.getD "localhost"
  match derivedPort u with
  | none => false
  | some p => net host p

/-- Observable state of the `_probe` loop (src/main.py lines 168-208):
`attempt` is the loop counter, `backoff` the current sleep duration,
`checks` the number of reachability checks performed, `registrations` the
number of `provider.add_log_record_processor` calls, `sleeps` the number of
`_time.sleep` calls, `unreachableDiags` and `attachFailDiags` the numbers of
"not reachable" and "failed to attach" diagnostics printed. -/
structure ProberState where
  attempt : ℕ
  backoff : ℚ
  checks : ℕ
  registrations : ℕ
  sleeps : ℕ
  unreachableDiags : ℕ
  attachFailDiags : ℕ
deriving DecidableEq, Repr

/-- Initial `_probe` state: `backoff = float(initial_backoff)`, `attempt = 0`,
nothing done yet. -/
def ProberState.start (initial_backoff : ℚ) : ProberState :=
  { attempt := 0, backoff := initial_backoff, checks := 0, registrations := 0
    sleeps := 0, unreachableDiags := 0, attachFailDiags := 0 }

/-- The `while True` loop of `_probe` (src/main.py lines 175-208), run for at
most `fuel` iterations.  `reach k` is the result of the reachability check on
attempt `k` and `attach k` whether exporter construction plus
`add_log_record_processor` succeed on attempt `k`.  Per iteration the code
increments `attempt`, performs the check, and either registers and breaks
(success: no sleep, no backoff growth), or prints a diagnostic, sleeps for
`backoff`, and doubles the backoff capped at `max_backoff`.  The returned
boolean is `true` iff the loop terminated via `break` within `fuel`
iterations. -/
def probeLoop (reach attach : ℕ → Bool) (max_backoff : ℚ) :
    ℕ → ProberState → ProberState × Bool
  | 0, s => (s, false)
  | fuel + 1, s =>
      let a := s.attempt + 1
      let s1 := { s with attempt := a, checks := s.checks + 1 }
      if reach a then
        if attach a then
          ({ s1 with registrations := s1.registrations + 1 }, true)
        else
          probeLoop reach attach max_backoff fuel
            { s1 with
              attachFailDiags := s1.attachFailDiags + 1
              sleeps := s1.sleeps + 1
              backoff := min (s1.backoff * 2) max_backoff }
      else
        probeLoop reach attach max_backoff fuel
          { s1 with
            unreachableDiags := s1.unreachableDiags + 1
            sleeps := s1.sleeps + 1
            backoff := min (s1.backoff * 2) max_backoff }

/-- Model of Python `str.lower()` for the ASCII configuration strings the
repository compares: every character is lowered. -/
def pyLower (s : String) : String :=
  String.mk (s.data.map Char.toLower)

/-- Model of Python `str.strip()`: whitespace is removed from both ends. -/
def pyStrip (s : String) : String :=
  String.mk
    (((s.data.dropWhile Char.isWhitespace).reverse.dropWhile
      Char.isWhitespace).reverse)

/-- Model of Python `s.startswith(p)`: `p` is a prefix of `s`. -/
def pyStartsWith (s p : String) : Bool :=
  p.data.isPrefixOf s.data

/-- The `want_grpc` computation shared by `SafeOTLPLogExporter.__init__`
(src/main.py lines 44-52) and the top level of src/test.py (lines 20-32):
the protocol environment variable is lowered and stripped; `"grpc"` forces
gRPC; a value starting with `"http"` (which subsumes `"http/protobuf"`,
`"http/json"`, `"http"`) forces HTTP; otherwise the endpoint's URL scheme
decides: `http`/`https` (lowered) means HTTP, anything else — including an
absent or empty endpoint, whose scheme is `None` — means gRPC. -/
def want_grpc (proto_env_raw : String) (endpoint : Option ParsedUrl) : Bool :=
  let proto_env := pyStrip (pyLower proto_env_raw)
  if proto_env = "grpc" then true
  else if pyStartsWith proto_env "http" ∨ proto_env = "http/protobuf" ∨
      proto_env = "http/json" ∨ proto_env = "http" then false
  else
    match endpoint with
    | some u => !(pyLower u.scheme = "http" ∨ pyLower u.scheme = "https")
    | none => true

/-- Concrete exporter classes the resolution can produce: the two OTLP
transports, or an arbitrary caller-supplied class (the `exporter_cls`
override), indexed by a number. -/
inductive ExporterCls where
  | otlpHTTP
  | otlpGRPC
  | custom (n : ℕ)
deriving DecidableEq, Repr

/-- Exporter-class choice of `SafeOTLPLogExporter.__init__` (src/main.py
lines 42-73): an explicit `exporter_cls` wins unconditionally; otherwise
`want_grpc` decides, and when gRPC is wanted but its lazy import fails
(`grpcAvailable = false`) the code falls back to the HTTP exporter. -/
def choose_exporter_cls (exporter_cls : Option ExporterCls)
    (proto_env_raw : String) (endpoint : Option ParsedUrl)
    (grpcAvailable : Bool) : ExporterCls :=
  match exporter_cls with
  | some c => c
  | none =>
      if !want_grpc proto_env_raw endpoint then .otlpHTTP
      else if grpcAvailable then .otlpGRPC
      else .otlpHTTP

/-- Transport selected by `setup_otelproviders`. -/
inductive Transport where
  | grpc
  | http
deriving DecidableEq, Repr

/-- Outcome of `setup_otelproviders` when it returns normally: either setup
was skipped (no endpoint configured; `None` providers returned) or the three
providers were built over the given transport. -/
inductive SetupOutcome where
  | skipped
  | providers (t : Transport)
deriving DecidableEq, Repr

/-- The control flow of `setup_otelproviders` (src/new.py lines 1-74): if
`OTEL_EXPORTER_OTLP_ENDPOINT` is blank, skip; else if the protocol variable
(lowered, stripped) is `"grpc"`, import the gRPC exporters and raise a
`RuntimeError` when the import fails — no fallback; otherwise import the
HTTP exporters, raising on import failure likewise.  `Except.error` models
the raised `RuntimeError` message. -/
def setup_otelproviders (endpoint_env proto_env : String)
    (grpcAvailable httpAvailable : Bool) : Except String SetupOutcome :=
  if pyStrip endpoint_env = "" then .ok .skipped
  else if pyStrip (pyLower proto_env) = "grpc" then
    if grpcAvailable then .ok (.providers .grpc)
    else .error "gRPC OTLP exporter imports failed. Install the necessary packages / system libs.Try installing libstdc++ (e.g. apt install libstdc++6) to enable gRPC."
  else
    if httpAvailable then .ok (.providers .http)
    else .error "HTTP OTLP exporter imports failed. Install the necessary packages / system libs."

/-- Clock readings spaced 9 seconds apart (both readings of call `j` at time
`9 * j`): far enough apart that every call passes an 8-second-capped backoff
gate.  Used to instantiate concrete failure scenarios. -/
def spacedClock : ℕ → ℚ × ℚ :=
  fun j => (((9 * j : ℕ) : ℚ), ((9 * j : ℕ) : ℚ))

/-- Backoff invariant of the wrapper (spec §3): the initial backoff is
positive and `backoff_initial ≤ backoff ≤ max_backoff`. -/
def GateInv (g : SafeOTLPLogExporter) : Prop :=
  0 < g.backoff_initial ∧ g.backoff_initial ≤ g.backoff ∧
    g.backoff ≤ g.max_backoff

/-- C1: an export call whose current time is earlier than `next_try` returns
`None` (suppressed) immediately, does not invoke the inner exporter, and
mutates no state field — suppressed calls never advance the backoff. -/
theorem C1_suppressed_export_is_noop {α : Type} (g : SafeOTLPLogExporter)
    (t0 t1 : ℚ) (outcome : InnerResult α) (h : t0 < g.next_try) :
    (g.export t0 t1 outcome).result = none ∧
    (g.export t0 t1 outcome).innerCalled = false ∧
    (g.export t0 t1 outcome).gate = g ∧
    (g.export t0 t1 outcome).reportEmitted = false := by
  simp [SafeOTLPLogExporter.export, h]

/-- C1 witness: a wrapper in its backoff window (next_try = 1) suppresses a
call at time 0 without touching its state. -/
theorem C1_suppressed_export_is_noop_witness :
    ((0 : ℚ) <
      (SafeOTLPLogExporter.mk false 1 2 8 1).next_try) ∧
    ((SafeOTLPLogExporter.mk false 1 2 8 1).export 0 0
        (InnerResult.err (α := Unit))).result = none ∧
    ((SafeOTLPLogExporter.mk false 1 2 8 1).export 0 0
        (InnerResult.err (α := Unit))).innerCalled = false ∧
    ((SafeOTLPLogExporter.mk false 1 2 8 1).export 0 0
        (InnerResult.err (α := Unit))).gate =
      SafeOTLPLogExporter.mk false 1 2 8 1 ∧
    ((SafeOTLPLogExporter.mk false 1 2 8 1).export 0 0
        (InnerResult.err (α := Unit))).reportEmitted = false := by
  have h : (0 : ℚ) < (SafeOTLPLogExporter.mk false 1 2 8 1).next_try := by
    norm_num
  have hc := C1_suppressed_export_is_noop
    (SafeOTLPLogExporter.mk false 1 2 8 1) 0 0 (InnerResult.err (α := Unit)) h
  exact ⟨h, hc.1, hc.2.1, hc.2.2.1, hc.2.2.2⟩

/-- Helper: `export` never changes the `backoff_initial` and `max_backoff`
fields, so they are constant along any run of failing calls. -/
theorem failRun_fixed_fields (g : SafeOTLPLogExporter) (ts : ℕ → ℚ × ℚ) :
    ∀ n, (failRun g ts n).max_backoff = g.max_backoff ∧
      (failRun g ts n).backoff_initial = g.backoff_initial := by
  intro n
  induction n with
  | zero => exact ⟨rfl, rfl⟩
  | succ n ih =>
      simp only [failRun, SafeOTLPLogExporter.export]
      split
      · exact ih
      · exact ⟨ih.1, ih.2⟩

/-- Helper: after `n` failing calls that each pass the backoff gate, the
`_backoff` field of a freshly constructed wrapper is `min (i * 2 ^ n) m`. -/
theorem failRun_backoff (i m : ℚ) (hi : 0 < i) (him : i ≤ m)
    (ts : ℕ → ℚ × ℚ) (n : ℕ)
    (hpass : ∀ k, k < n → ¬ (ts k).1 <
      (failRun (SafeOTLPLogExporter.construct i m) ts k).next_try) :
    (failRun (SafeOTLPLogExporter.construct i m) ts n).backoff
      = min (i * 2 ^ n) m := by
  induction n with
  | zero =>
      simp [failRun, SafeOTLPLogExporter.construct, min_eq_left him]
  | succ n ih =>
      have hp : ∀ k, k < n → ¬ (ts k).1 <
          (failRun (SafeOTLPLogExporter.construct i m) ts k).next_try :=
        fun k hk => hpass k (Nat.lt_succ_of_lt hk)
      have hb := ih hp
      have hn := hpass n (Nat.lt_succ_self n)
      have hmax :=
        (failRun_fixed_fields (SafeOTLPLogExporter.construct i m) ts n).1
      simp only [failRun, SafeOTLPLogExporter.export, if_neg hn]
      rw [hb, hmax]
      show min (min (i * 2 ^ n) m * 2) m = min (i * 2 ^ (n + 1)) m
      have h2n : (0 : ℚ) < 2 ^ n := by positivity
      rcases le_total (i * 2 ^ n) m with h | h
      · rw [min_eq_left h]
        congr 1
        ring
      · rw [min_eq_right h, min_eq_right (show m ≤ m * 2 by linarith),
          min_eq_right (show m ≤ i * 2 ^ (n + 1) by
            have hps : i * 2 ^ (n + 1) = i * 2 ^ n * 2 := by ring
            have hpos : 0 < i * 2 ^ n := mul_pos hi h2n
            linarith)]

/-- C2 counterexample: with `initial = 1` and `max = 8`, immediately after
the 1st failure the `_backoff` field equals `2`, not
`min (1 * 2 ^ (1 - 1)) 8 = 1` as the claim's formula states — the code sets
`next_try` from the old backoff first and doubles afterwards, so the field
after the `n`-th failure holds `min (initial * 2 ^ n) max` while
`min (initial * 2 ^ (n - 1)) max` is the suppression window the `n`-th
failure scheduled. -/
theorem C2_counterexample :
    ((SafeOTLPLogExporter.construct 1 8).export 0 0
        (InnerResult.err (α := Unit))).gate.backoff = 2 ∧
      ¬ ((SafeOTLPLogExporter.construct 1 8).export 0 0
          (InnerResult.err (α := Unit))).gate.backoff
        = min ((1 : ℚ) * 2 ^ (1 - 1)) 8 := by
  constructor <;>
    norm_num [SafeOTLPLogExporter.construct, SafeOTLPLogExporter.export]

/-- C2 amended: for a run of `n` consecutive failing export calls that all
reach the inner exporter (each passes the backoff gate), the `_backoff`
field after the `n`-th failure equals `min (initial * 2 ^ n) max`, and the
suppression window scheduled by each failure — `next_try` minus the
failure's clock reading, i.e. the value `backoffCurrent` held while that
failure was processed — equals `min (initial * 2 ^ (n - 1)) max` for the
`n`-th failure (0-based: the `(k+1)`-st failure schedules a window of
`min (initial * 2 ^ k) max`); with `initial = 1s`, `max = 8s` the windows on
attempts 1..5 are 1s, 2s, 4s, 8s, 8s. -/
theorem C2_backoff_growth (i m : ℚ) (hi : 0 < i) (him : i ≤ m)
    (ts : ℕ → ℚ × ℚ) (n : ℕ)
    (hpass : ∀ k, k < n → ¬ (ts k).1 <
      (failRun (SafeOTLPLogExporter.construct i m) ts k).next_try) :
    (failRun (SafeOTLPLogExporter.construct i m) ts n).backoff
        = min (i * 2 ^ n) m ∧
      ∀ k, k < n →
        (failRun (SafeOTLPLogExporter.construct i m) ts (k + 1)).next_try
          = (ts k).2 + min (i * 2 ^ k) m := by
  refine ⟨failRun_backoff i m hi him ts n hpass, ?_⟩
  intro k hk
  have hpk := hpass k hk
  have hb := failRun_backoff i m hi him ts k
    (fun j hj => hpass j (hj.trans hk))
  simp only [failRun, SafeOTLPLogExporter.export, if_neg hpk]
  rw [hb]

/-- C2 witness: the concrete scenario `initial = 1`, `max = 8`, five failures
at widely spaced times — the backoff field ends at `min (1 * 2 ^ 5) 8 = 8`
and the observed suppression windows are 1s, 2s, 4s, 8s, 8s. -/
theorem C2_backoff_growth_witness :
    (0 : ℚ) < 1 ∧ (1 : ℚ) ≤ 8 ∧
    (∀ k, k < 5 → ¬ (spacedClock k).1 <
      (failRun (SafeOTLPLogExporter.construct 1 8) spacedClock k).next_try) ∧
    (failRun (SafeOTLPLogExporter.construct 1 8) spacedClock 5).backoff
      = min ((1 : ℚ) * 2 ^ 5) 8 ∧
    (∀ k, k < 5 →
      (failRun (SafeOTLPLogExporter.construct 1 8) spacedClock (k + 1)).next_try
        = (spacedClock k).2 + min ((1 : ℚ) * 2 ^ k) 8) ∧
    (failRun (SafeOTLPLogExporter.construct 1 8) spacedClock 1).next_try
        - (spacedClock 0).2 = 1 ∧
    (failRun (SafeOTLPLogExporter.construct 1 8) spacedClock 2).next_try
        - (spacedClock 1).2 = 2 ∧
    (failRun (SafeOTLPLogExporter.construct 1 8) spacedClock 3).next_try
        - (spacedClock 2).2 = 4 ∧
    (failRun (SafeOTLPLogExporter.construct 1 8) spacedClock 4).next_try
        - (spacedClock 3).2 = 8 ∧
    (failRun (SafeOTLPLogExporter.construct 1 8) spacedClock 5).next_try
        - (spacedClock 4).2 = 8 := by
  have hpass : ∀ k, k < 5 → ¬ (spacedClock k).1 <
      (failRun (SafeOTLPLogExporter.construct 1 8) spacedClock k).next_try := by
    intro k hk
    interval_cases k <;>
      norm_num [spacedClock, failRun, SafeOTLPLogExporter.export,
        SafeOTLPLogExporter.construct]
  have h := C2_backoff_growth 1 8 (by norm_num) (by norm_num) spacedClock 5 hpass
  refine ⟨by norm_num, by norm_num, hpass, h.1, h.2, ?_, ?_, ?_, ?_, ?_⟩ <;>
    norm_num [spacedClock, failRun, SafeOTLPLogExporter.export,
      SafeOTLPLogExporter.construct]

/-- C3: the claim holds for `SafeOTLPLogExporter.export` of src/main.py but
is violated by the cited `SafeOTLPExporter.export` of src/test.py, which
has no success-reset branch.  Concrete failing run on the test.py variant
with `initial = 1`, `max = 8`: a failure at t=0 leaves the state
`(reported, backoff 2, next_try 1)`; the success at t=2 passes the gate and
returns the inner result but mutates nothing — `_backoff` stays 2 and
`_next_try` stays 1 instead of resetting to 1 and 0; the subsequent failure
at t=3 therefore schedules `next_try = 3 + 2` (a doubled 2-second window),
not `3 + 1`.  At the same success input, the src/main.py variant resets
both fields as the claim states. -/
theorem C3_success_reset_missing_in_test_variant :
    (SafeOTLPExporter.export (SafeOTLPLogExporter.construct 1 8) 0 0
        (InnerResult.err (α := Unit))).gate
      = SafeOTLPLogExporter.mk true 1 2 8 1 ∧
    (SafeOTLPExporter.export (SafeOTLPLogExporter.mk true 1 2 8 1) 2 2
        (InnerResult.ok ())).result = some () ∧
    (SafeOTLPExporter.export (SafeOTLPLogExporter.mk true 1 2 8 1) 2 2
        (InnerResult.ok ())).gate = SafeOTLPLogExporter.mk true 1 2 8 1 ∧
    ¬ (SafeOTLPExporter.export (SafeOTLPLogExporter.mk true 1 2 8 1) 2 2
        (InnerResult.ok ())).gate.backoff
      = (SafeOTLPLogExporter.mk true 1 2 8 1).backoff_initial ∧
    ¬ (SafeOTLPExporter.export (SafeOTLPLogExporter.mk true 1 2 8 1) 2 2
        (InnerResult.ok ())).gate.next_try = 0 ∧
    (SafeOTLPExporter.export
        (SafeOTLPExporter.export (SafeOTLPLogExporter.mk true 1 2 8 1) 2 2
          (InnerResult.ok ())).gate 3 3
        (InnerResult.err (α := Unit))).gate.next_try = 3 + 2 ∧
    ((SafeOTLPLogExporter.mk true 1 2 8 1).export 2 2
        (InnerResult.ok ())).gate.backoff = 1 ∧
    ((SafeOTLPLogExporter.mk true 1 2 8 1).export 2 2
        (InnerResult.ok ())).gate.next_try = 0 ∧
    (((SafeOTLPLogExporter.mk true 1 2 8 1).export 2 2
        (InnerResult.ok ())).gate.export 3 3
          (InnerResult.err (α := Unit))).gate.next_try = 3 + 1 := by
  refine ⟨?_, ?_, ?_, ?_, ?_, ?_, ?_, ?_, ?_⟩ <;>
    norm_num [SafeOTLPExporter.export, SafeOTLPLogExporter.export,
      SafeOTLPLogExporter.construct]

/-- C9: for a wrapper constructed with `0 < initial ≤ max`, the invariant
`0 < backoff_initial ∧ backoff_initial ≤ backoff ≤ max_backoff` holds after
construction and is preserved by every `export` call — the suppressed
branch changes nothing, the failure branch doubles with a cap, and the
success branch resets to the initial backoff. -/
theorem C9_backoff_invariant (i m : ℚ) (hi : 0 < i) (him : i ≤ m) :
    GateInv (SafeOTLPLogExporter.construct i m) ∧
    ∀ (g : SafeOTLPLogExporter) (t0 t1 : ℚ) (o : InnerResult Unit),
      GateInv g → GateInv (g.export t0 t1 o).gate := by
  constructor
  · exact ⟨hi, le_refl _, him⟩
  · intro g t0 t1 o hg
    obtain ⟨h1, h2, h3⟩ := hg
    unfold SafeOTLPLogExporter.export
    split
    · exact ⟨h1, h2, h3⟩
    · cases o with
      | ok r => exact ⟨h1, le_refl _, le_trans h2 h3⟩
      | err =>
          refine ⟨h1, le_min (by linarith) (by linarith), min_le_right _ _⟩

/-- C9 witness: the invariant holds for a fresh `construct 1 8` wrapper and
is preserved by a failing call on it. -/
theorem C9_backoff_invariant_witness :
    (0 : ℚ) < 1 ∧ (1 : ℚ) ≤ 8 ∧
    GateInv (SafeOTLPLogExporter.construct 1 8) ∧
    GateInv ((SafeOTLPLogExporter.construct 1 8).export 0 0
      (InnerResult.err (α := Unit))).gate := by
  have h := C9_backoff_invariant 1 8 (by norm_num) (by norm_num)
  exact ⟨by norm_num, by norm_num, h.1,
    h.2 (SafeOTLPLogExporter.construct 1 8) 0 0 (InnerResult.err (α := Unit)) h.1⟩

/-- Helper: one `export` call sets `reported` iff it was set before or the
call emitted the one-shot report, and the report is only emitted when the
latch was clear. -/
theorem export_latch_step {α : Type} (g : SafeOTLPLogExporter)
    (t0 t1 : ℚ) (o : InnerResult α) :
    (g.export t0 t1 o).gate.reported
        = (g.reported || (g.export t0 t1 o).reportEmitted) ∧
      ((g.export t0 t1 o).reportEmitted = true → g.reported = false) := by
  unfold SafeOTLPLogExporter.export
  split
  · simp
  · cases o <;> simp

/-- Helper: the same latch facts for an arbitrary wrapper call (`export`,
`shutdown` or `force_flush`). -/
theorem stepEvent_latch (g : SafeOTLPLogExporter) (e : GateEvent) :
    (stepEvent g e).1.reported = (g.reported || (stepEvent g e).2) ∧
      ((stepEvent g e).2 = true → g.reported = false) := by
  cases e with
  | exportCall t0 t1 o => simpa [stepEvent] using export_latch_step g t0 t1 o
  | shutdownCall o => cases o <;> simp [stepEvent, SafeOTLPLogExporter.shutdown]
  | flushCall o => cases o <;> simp [stepEvent, SafeOTLPLogExporter.force_flush]

/-- C5: over any sequence of `export` calls, the number of emitted one-shot
first-failure reports plus one-if-already-latched is at most one — so a
fresh wrapper emits the report at most once over its whole lifetime — and
the latch, once set, is never cleared. -/
theorem C5_first_failure_report_at_most_once :
    ∀ (l : List (ℚ × ℚ × InnerResult Unit)) (g : SafeOTLPLogExporter),
      (runExports g l).2 + (cond g.reported 1 0) ≤ 1 ∧
      (g.reported = true → (runExports g l).1.reported = true) := by
  intro l
  induction l with
  | nil =>
      intro g
      constructor
      · cases hg : g.reported <;> simp [runExports, hg]
      · intro hg
        simpa [runExports] using hg
  | cons e rest ih =>
      intro g
      obtain ⟨t0, t1, o⟩ := e
      have hs := export_latch_step g t0 t1 o
      have ihg := ih (g.export t0 t1 o).gate
      constructor
      · simp only [runExports]
        cases hem : (g.export t0 t1 o).reportEmitted with
        | false =>
            have hrep : (g.export t0 t1 o).gate.reported = g.reported := by
              rw [hs.1, hem, Bool.or_false]
            have h1 := ihg.1
            rw [hrep] at h1
            simpa using h1
        | true =>
            have hgf : g.reported = false := hs.2 hem
            have hrep : (g.export t0 t1 o).gate.reported = true := by
              rw [hs.1, hem, Bool.or_true]
            have h1 := ihg.1
            rw [hrep] at h1
            simp only [cond_true] at h1
            simp only [hem, if_true, hgf, cond_false]
            omega
      · intro hg
        simp only [runExports]
        apply ihg.2
        rw [hs.1, hg, Bool.true_or]

/-- C5 witness: two consecutive failing calls on a fresh wrapper emit at
most one report, and a wrapper whose latch is set keeps it set. -/
theorem C5_first_failure_report_at_most_once_witness :
    (runExports (SafeOTLPLogExporter.construct 1 8)
        [(0, 0, InnerResult.err), (2, 2, InnerResult.err)]).2 ≤ 1 ∧
    (SafeOTLPLogExporter.mk true 1 2 8 0).reported = true ∧
    (runExports (SafeOTLPLogExporter.mk true 1 2 8 0)
        [(0, 0, InnerResult.err)]).1.reported = true := by
  refine ⟨?_, rfl, ?_⟩
  · have h := (C5_first_failure_report_at_most_once
      [(0, 0, InnerResult.err), (2, 2, InnerResult.err)]
      (SafeOTLPLogExporter.construct 1 8)).1
    simpa [SafeOTLPLogExporter.construct] using h
  · exact (C5_first_failure_report_at_most_once
      [(0, 0, InnerResult.err)] (SafeOTLPLogExporter.mk true 1 2 8 0)).2 rfl

/-- C10: the one-shot latch is shared between the first-export-failure
report and the shutdown / force_flush error reports: across any
interleaving of `export`, `shutdown` and `force_flush` calls, the number of
emitted reports plus one-if-already-latched is at most one — so a report
consumed by a shutdown or flush error leaves none for a later export
failure and vice versa — and the latch is never cleared. -/
theorem C10_shared_latch_across_calls :
    ∀ (l : List GateEvent) (g : SafeOTLPLogExporter),
      (runEvents g l).2 + (cond g.reported 1 0) ≤ 1 ∧
      (g.reported = true → (runEvents g l).1.reported = true) := by
  intro l
  induction l with
  | nil =>
      intro g
      constructor
      · cases hg : g.reported <;> simp [runEvents, hg]
      · intro hg
        simpa [runEvents] using hg
  | cons e rest ih =>
      intro g
      have hs := stepEvent_latch g e
      have ihg := ih (stepEvent g e).1
      constructor
      · simp only [runEvents]
        cases hem : (stepEvent g e).2 with
        | false =>
            have hrep : (stepEvent g e).1.reported = g.reported := by
              rw [hs.1, hem, Bool.or_false]
            have h1 := ihg.1
            rw [hrep] at h1
            simpa using h1
        | true =>
            have hgf : g.reported = false := hs.2 hem
            have hrep : (stepEvent g e).1.reported = true := by
              rw [hs.1, hem, Bool.or_true]
            have h1 := ihg.1
            rw [hrep] at h1
            simp only [cond_true] at h1
            simp only [hem, if_true, hgf, cond_false]
            omega
      · intro hg
        simp only [runEvents]
        apply ihg.2
        rw [hs.1, hg, Bool.true_or]

/-- C10 witness: a shutdown error on a fresh wrapper consumes the latch, so
the interleaving "shutdown error, then export failure" emits exactly one
report in total and the later export failure emits none. -/
theorem C10_shared_latch_across_calls_witness :
    (runEvents (SafeOTLPLogExporter.construct 1 8)
        [GateEvent.shutdownCall InnerResult.err,
         GateEvent.exportCall 0 0 InnerResult.err]).2 ≤ 1 ∧
    (runEvents (SafeOTLPLogExporter.construct 1 8)
        [GateEvent.shutdownCall InnerResult.err,
         GateEvent.exportCall 0 0 InnerResult.err]).2 = 1 ∧
    (stepEvent ((stepEvent (SafeOTLPLogExporter.construct 1 8)
        (GateEvent.shutdownCall InnerResult.err)).1)
        (GateEvent.exportCall 0 0 InnerResult.err)).2 = false := by
  refine ⟨?_, ?_, ?_⟩
  · have h := (C10_shared_latch_across_calls
      [GateEvent.shutdownCall InnerResult.err,
       GateEvent.exportCall 0 0 InnerResult.err]
      (SafeOTLPLogExporter.construct 1 8)).1
    simpa [SafeOTLPLogExporter.construct] using h
  · norm_num [runEvents, stepEvent, SafeOTLPLogExporter.shutdown,
      SafeOTLPLogExporter.export, SafeOTLPLogExporter.construct]
  · norm_num [stepEvent, SafeOTLPLogExporter.shutdown,
      SafeOTLPLogExporter.export, SafeOTLPLogExporter.construct]

/-- Helper: if the reachability check fails on the first `n` attempts after
state `s` and succeeds on attempt `s.attempt + n + 1`, and attaching
succeeds, the loop performs exactly `n + 1` further checks, one
registration, `n` sleeps and `n` unreachable diagnostics, then breaks —
regardless of how much fuel beyond `n + 1` remains. -/
theorem probeLoop_first_success (reach : ℕ → Bool) (m : ℚ) :
    ∀ (n : ℕ) (s : ProberState) (fuel : ℕ),
      n + 1 ≤ fuel →
      (∀ k, s.attempt < k → k ≤ s.attempt + n → reach k = false) →
      reach (s.attempt + n + 1) = true →
      (probeLoop reach (fun _ => true) m fuel s).2 = true ∧
      (probeLoop reach (fun _ => true) m fuel s).1.registrations
        = s.registrations + 1 ∧
      (probeLoop reach (fun _ => true) m fuel s).1.checks
        = s.checks + (n + 1) ∧
      (probeLoop reach (fun _ => true) m fuel s).1.sleeps = s.sleeps + n ∧
      (probeLoop reach (fun _ => true) m fuel s).1.attempt
        = s.attempt + (n + 1) ∧
      (probeLoop reach (fun _ => true) m fuel s).1.unreachableDiags
        = s.unreachableDiags + n := by
  intro n
  induction n with
  | zero =>
      intro s fuel hfuel hfalse hsucc
      cases fuel with
      | zero => omega
      | succ f =>
          have hr : reach (s.attempt + 1) = true := by
            simpa using hsucc
          simp [probeLoop, hr]
  | succ n ih =>
      intro s fuel hfuel hfalse hsucc
      cases fuel with
      | zero => omega
      | succ f =>
          have hr : reach (s.attempt + 1) = false :=
            hfalse (s.attempt + 1) (by omega) (by omega)
          have ihs := ih
            { s with
              attempt := s.attempt + 1
              checks := s.checks + 1
              unreachableDiags := s.unreachableDiags + 1
              sleeps := s.sleeps + 1
              backoff := min (s.backoff * 2) m }
            f (by omega)
            (by
              intro k h1 h2
              simp only at h1 h2
              exact hfalse k (by omega) (by omega))
            (by
              have he : s.attempt + 1 + n + 1 = s.attempt + (n + 1) + 1 := by
                omega
              rw [he]
              exact hsucc)
          obtain ⟨h1, h2, h3, h4, h5, h6⟩ := ihs
          simp only [probeLoop, hr, if_neg, Bool.false_eq_true, if_false]
          refine ⟨h1, ?_, ?_, ?_, ?_, ?_⟩ <;>
            simp only [h2, h3, h4, h5, h6] <;> omega

/-- Helper: when the reachability check never succeeds, the loop never
registers, never terminates, and emits one unreachable diagnostic per
iteration. -/
theorem probeLoop_never_reachable (reach attach : ℕ → Bool) (m : ℚ)
    (hre : ∀ k, reach k = false) :
    ∀ (fuel : ℕ) (s : ProberState),
      (probeLoop reach attach m fuel s).2 = false ∧
      (probeLoop reach attach m fuel s).1.registrations = s.registrations ∧
      (probeLoop reach attach m fuel s).1.unreachableDiags
        = s.unreachableDiags + fuel ∧
      (probeLoop reach attach m fuel s).1.checks = s.checks + fuel ∧
      (probeLoop reach attach m fuel s).1.sleeps = s.sleeps + fuel := by
  intro fuel
  induction fuel with
  | zero => intro s; simp [probeLoop]
  | succ f ih =>
      intro s
      have hr : reach (s.attempt + 1) = false := hre _
      have ihs := ih
        { s with
          attempt := s.attempt + 1
          checks := s.checks + 1
          unreachableDiags := s.unreachableDiags + 1
          sleeps := s.sleeps + 1
          backoff := min (s.backoff * 2) m }
      obtain ⟨h1, h2, h3, h4, h5⟩ := ihs
      simp only [probeLoop, hr, Bool.false_eq_true, if_false]
      refine ⟨h1, ?_, ?_, ?_, ?_⟩ <;>
        simp only [h2, h3, h4, h5] <;> omega

/-- C4: if the reachability check first succeeds on the `n`-th probe and
exporter construction plus registration then succeed, the prober performs
exactly one registration after exactly `n` reachability checks and breaks
out of the loop at once — `n - 1` sleeps, no further probing, however much
fuel remains. -/
theorem C4_prober_registers_once_then_stops (reach : ℕ → Bool)
    (m b0 : ℚ) (n fuel : ℕ) (hn : 1 ≤ n) (hfuel : n ≤ fuel)
    (hbefore : ∀ k, 1 ≤ k → k < n → reach k = false)
    (hsucc : reach n = true) :
    (probeLoop reach (fun _ => true) m fuel (ProberState.start b0)).2
      = true ∧
    (probeLoop reach (fun _ => true) m fuel
      (ProberState.start b0)).1.registrations = 1 ∧
    (probeLoop reach (fun _ => true) m fuel
      (ProberState.start b0)).1.checks = n ∧
    (probeLoop reach (fun _ => true) m fuel
      (ProberState.start b0)).1.sleeps = n - 1 := by
  obtain ⟨n', rfl⟩ : ∃ n', n = n' + 1 := ⟨n - 1, by omega⟩
  have h := probeLoop_first_success reach m n' (ProberState.start b0) fuel
    (by simpa [ProberState.start] using hfuel)
    (by
      intro k h1 h2
      simp only [ProberState.start] at h1 h2
      exact hbefore k (by omega) (by omega))
    (by simpa [ProberState.start] using hsucc)
  obtain ⟨h1, h2, h3, h4, h5, h6⟩ := h
  simp only [ProberState.start] at h1 h2 h3 h4 ⊢
  refine ⟨h1, ?_, ?_, ?_⟩
  · omega
  · omega
  · omega

/-- C4 witness: a target reachable from the 3rd probe on, with fuel for 10
iterations: one registration, three checks, two sleeps. -/
theorem C4_prober_registers_once_then_stops_witness :
    (1 : ℕ) ≤ 3 ∧ (3 : ℕ) ≤ 10 ∧
    (∀ k, 1 ≤ k → k < 3 → (decide (3 ≤ k) : Bool) = false) ∧
    (decide ((3 : ℕ) ≤ 3) : Bool) = true ∧
    (probeLoop (fun k => decide (3 ≤ k)) (fun _ => true) 300 10
      (ProberState.start 5)).2 = true ∧
    (probeLoop (fun k => decide (3 ≤ k)) (fun _ => true) 300 10
      (ProberState.start 5)).1.registrations = 1 ∧
    (probeLoop (fun k => decide (3 ≤ k)) (fun _ => true) 300 10
      (ProberState.start 5)).1.checks = 3 ∧
    (probeLoop (fun k => decide (3 ≤ k)) (fun _ => true) 300 10
      (ProberState.start 5)).1.sleeps = 3 - 1 := by
  have hb : ∀ k, 1 ≤ k → k < 3 → (decide (3 ≤ k) : Bool) = false := by
    decide
  have h := C4_prober_registers_once_then_stops (fun k => decide (3 ≤ k))
    300 5 3 10 (by norm_num) (by norm_num) hb (by decide)
  exact ⟨by norm_num, by norm_num, hb, by decide, h.1, h.2.1, h.2.2.1, h.2.2.2⟩

/-- C6: when no port can be derived from the endpoint (no explicit port and
a scheme other than http/https), the reachability check returns `false`
without touching the network, the probe loop emits an unreachable
diagnostic every cycle, never registers, and never terminates — it keeps
retrying for as long as it runs instead of failing or returning. -/
theorem C6_underivable_port_keeps_retrying (u : ParsedUrl)
    (net : String → ℕ → Bool) (attach : ℕ → Bool) (m b0 : ℚ) (fuel : ℕ)
    (hport : derivedPort u = none) :
    is_endpoint_reachable u net = false ∧
    (probeLoop (fun _ => is_endpoint_reachable u net) attach m fuel
      (ProberState.start b0)).2 = false ∧
    (probeLoop (fun _ => is_endpoint_reachable u net) attach m fuel
      (ProberState.start b0)).1.registrations = 0 ∧
    (probeLoop (fun _ => is_endpoint_reachable u net) attach m fuel
      (ProberState.start b0)).1.unreachableDiags = fuel ∧
    (probeLoop (fun _ => is_endpoint_reachable u net) attach m fuel
      (ProberState.start b0)).1.checks = fuel := by
  have hre : is_endpoint_reachable u net = false := by
    simp [is_endpoint_reachable, hport]
  have h := probeLoop_never_reachable (fun _ => is_endpoint_reachable u net)
    attach m (fun _ => hre) fuel (ProberState.start b0)
  obtain ⟨h1, h2, h3, h4, h5⟩ := h
  simp only [ProberState.start] at h2 h3 h4 ⊢
  exact ⟨hre, h1, by omega, by omega, by omega⟩

/-- C6 witness: the endpoint `grpc://localhost` (scheme `grpc`, no explicit
port) yields no derivable port; four loop iterations produce four
unreachable diagnostics, no registration, no termination, even over a
network oracle that would accept every connection. -/
theorem C6_underivable_port_keeps_retrying_witness :
    derivedPort (ParsedUrl.mk "grpc" (some "localhost") none) = none ∧
    is_endpoint_reachable (ParsedUrl.mk "grpc" (some "localhost") none)
      (fun _ _ => true) = false ∧
    (probeLoop (fun _ => is_endpoint_reachable
        (ParsedUrl.mk "grpc" (some "localhost") none) (fun _ _ => true))
      (fun _ => true) 300 4 (ProberState.start 5)).2 = false ∧
    (probeLoop (fun _ => is_endpoint_reachable
        (ParsedUrl.mk "grpc" (some "localhost") none) (fun _ _ => true))
      (fun _ => true) 300 4 (ProberState.start 5)).1.registrations = 0 ∧
    (probeLoop (fun _ => is_endpoint_reachable
        (ParsedUrl.mk "grpc" (some "localhost") none) (fun _ _ => true))
      (fun _ => true) 300 4 (ProberState.start 5)).1.unreachableDiags = 4 := by
  have hport : derivedPort (ParsedUrl.mk "grpc" (some "localhost") none)
      = none := by
    rfl
  have h := C6_underivable_port_keeps_retrying
    (ParsedUrl.mk "grpc" (some "localhost") none) (fun _ _ => true)
    (fun _ => true) 300 5 4 hport
  exact ⟨hport, h.1, h.2.1, h.2.2.1, h.2.2.2.1⟩

/-- C7: transport resolution order — an explicit `exporter_cls` override
wins unconditionally; else a normalized protocol env equal to `"grpc"`
selects the gRPC transport; else an HTTP-like protocol env (`"http"`,
`"http/protobuf"`, `"http/json"`) selects HTTP; else the endpoint URL
scheme decides: http/https selects HTTP, any other or absent scheme
selects gRPC. -/
theorem C7_resolution_decision_order :
    (∀ (c : ExporterCls) (p : String) (e : Option ParsedUrl) (g : Bool),
        choose_exporter_cls (some c) p e g = c) ∧
    (∀ (p : String) (e : Option ParsedUrl),
        pyStrip (pyLower p) = "grpc" →
        want_grpc p e = true ∧
        choose_exporter_cls none p e true = ExporterCls.otlpGRPC) ∧
    (∀ (p : String) (e : Option ParsedUrl) (g : Bool),
        (pyStrip (pyLower p) = "http" ∨ pyStrip (pyLower p) = "http/protobuf" ∨
          pyStrip (pyLower p) = "http/json") →
        want_grpc p e = false ∧
        choose_exporter_cls none p e g = ExporterCls.otlpHTTP) ∧
    (∀ (p : String) (u : ParsedUrl) (g : Bool),
        ¬ pyStrip (pyLower p) = "grpc" →
        pyStartsWith (pyStrip (pyLower p)) "http" = false →
        ((pyLower u.scheme = "http" ∨ pyLower u.scheme = "https") →
          want_grpc p (some u) = false ∧
          choose_exporter_cls none p (some u) g = ExporterCls.otlpHTTP) ∧
        (¬ (pyLower u.scheme = "http" ∨ pyLower u.scheme = "https") →
          want_grpc p (some u) = true ∧
          choose_exporter_cls none p (some u) true = ExporterCls.otlpGRPC)) ∧
    (∀ (p : String),
        ¬ pyStrip (pyLower p) = "grpc" →
        pyStartsWith (pyStrip (pyLower p)) "http" = false →
        want_grpc p none = true ∧
        choose_exporter_cls none p none true = ExporterCls.otlpGRPC) := by
  have hdisj : ∀ p : String,
      pyStartsWith (pyStrip (pyLower p)) "http" = false →
      ¬ (pyStartsWith (pyStrip (pyLower p)) "http" = true ∨
        pyStrip (pyLower p) = "http/protobuf" ∨
        pyStrip (pyLower p) = "http/json" ∨
        pyStrip (pyLower p) = "http") := by
    intro p h2
    rintro (h | h | h | h)
    · rw [h2] at h
      exact Bool.false_ne_true h
    · rw [h] at h2
      exact absurd h2 (by decide)
    · rw [h] at h2
      exact absurd h2 (by decide)
    · rw [h] at h2
      exact absurd h2 (by decide)
  refine ⟨?_, ?_, ?_, ?_, ?_⟩
  · intro c p e g
    rfl
  · intro p e hp
    have hw : want_grpc p e = true := by
      simp only [want_grpc, hp]
      simp
    exact ⟨hw, by simp [choose_exporter_cls, hw]⟩
  · intro p e g hp
    have hw : want_grpc p e = false := by
      rcases hp with hp | hp | hp
      · simp only [want_grpc, hp]
        simp [show pyStartsWith "http" "http" = true from by decide]
      · simp only [want_grpc, hp]
        simp [show pyStartsWith "http/protobuf" "http" = true from by decide]
      · simp only [want_grpc, hp]
        simp [show pyStartsWith "http/json" "http" = true from by decide]
    exact ⟨hw, by simp [choose_exporter_cls, hw]⟩
  · intro p u g h1 h2
    constructor
    · intro hscheme
      have hd : decide (pyLower u.scheme = "http" ∨ pyLower u.scheme = "https")
          = true := decide_eq_true hscheme
      have hw : want_grpc p (some u) = false := by
        simp only [want_grpc, if_neg h1, if_neg (hdisj p h2), hd,
          Bool.not_true]
      exact ⟨hw, by simp [choose_exporter_cls, hw]⟩
    · intro hscheme
      have hd : decide (pyLower u.scheme = "http" ∨ pyLower u.scheme = "https")
          = false := decide_eq_false hscheme
      have hw : want_grpc p (some u) = true := by
        simp only [want_grpc, if_neg h1, if_neg (hdisj p h2), hd,
          Bool.not_false]
      exact ⟨hw, by simp [choose_exporter_cls, hw]⟩
  · intro p h1 h2
    have hw : want_grpc p none = true := by
      simp only [want_grpc, if_neg h1, if_neg (hdisj p h2)]
    exact ⟨hw, by simp [choose_exporter_cls, hw]⟩

/-- C7 witness: concrete resolutions — an override beats `"grpc"` protocol
and an http endpoint; `" GRPC "` normalizes to gRPC; `"http/protobuf"`
selects HTTP; with no protocol, an `https` endpoint scheme selects HTTP, a
`grpc` scheme or a missing endpoint selects gRPC. -/
theorem C7_resolution_decision_order_witness :
    choose_exporter_cls (some (ExporterCls.custom 7)) "grpc"
      (some (ParsedUrl.mk "http" (some "collector") (some 4318))) false
      = ExporterCls.custom 7 ∧
    pyStrip (pyLower " GRPC ") = "grpc" ∧
    want_grpc " GRPC " none = true ∧
    choose_exporter_cls none " GRPC " none true = ExporterCls.otlpGRPC ∧
    pyStrip (pyLower "http/protobuf") = "http/protobuf" ∧
    want_grpc "http/protobuf" none = false ∧
    choose_exporter_cls none "http/protobuf" none false
      = ExporterCls.otlpHTTP ∧
    want_grpc "" (some (ParsedUrl.mk "https" (some "collector") none))
      = false ∧
    choose_exporter_cls none ""
      (some (ParsedUrl.mk "https" (some "collector") none)) true
      = ExporterCls.otlpHTTP ∧
    want_grpc "" (some (ParsedUrl.mk "grpc" (some "collector") none))
      = true ∧
    want_grpc "" none = true ∧
    choose_exporter_cls none "" none true = ExporterCls.otlpGRPC := by
  have h := C7_resolution_decision_order
  have h2 := h.2.1 " GRPC " none (by decide)
  have h3 := h.2.2.1 "http/protobuf" none false (Or.inr (Or.inl (by decide)))
  have h4 := (h.2.2.2.1 ""
    (ParsedUrl.mk "https" (some "collector") none) true (by decide)
    (by decide)).1 (Or.inr (by decide))
  have h5 := (h.2.2.2.1 ""
    (ParsedUrl.mk "grpc" (some "collector") none) true (by decide)
    (by decide)).2 (by decide)
  have h6 := h.2.2.2.2 "" (by decide) (by decide)
  exact ⟨h.1 _ _ _ _, by decide, h2.1, h2.2, by decide, h3.1, h3.2,
    h4.1, h4.2, h5.1, h6.1, h6.2⟩

/-- C8: under the hard-fail policy of `setup_otelproviders`, if the
protocol env selects gRPC and the gRPC implementation is unavailable, the
call raises (an `Except.error` with the RuntimeError message) and never
returns providers — no substitution with HTTP, whatever the availability
of the HTTP transport. -/
theorem C8_hard_fail_no_http_substitution (endpoint_env proto_env : String)
    (httpAvailable : Bool)
    (he : ¬ pyStrip endpoint_env = "")
    (hp : pyStrip (pyLower proto_env) = "grpc") :
    setup_otelproviders endpoint_env proto_env false httpAvailable
      = Except.error "gRPC OTLP exporter imports failed. Install the necessary packages / system libs.Try installing libstdc++ (e.g. apt install libstdc++6) to enable gRPC." ∧
    ∀ o : SetupOutcome,
      setup_otelproviders endpoint_env proto_env false httpAvailable
        ≠ Except.ok o := by
  have h1 : setup_otelproviders endpoint_env proto_env false httpAvailable
      = Except.error "gRPC OTLP exporter imports failed. Install the necessary packages / system libs.Try installing libstdc++ (e.g. apt install libstdc++6) to enable gRPC." := by
    simp [setup_otelproviders, he, hp]
  refine ⟨h1, ?_⟩
  intro o hc
  rw [h1] at hc
  exact Except.noConfusion hc

/-- C8 witness: a configured endpoint with protocol `grpc` and an
unavailable gRPC transport raises, even though HTTP is available. -/
theorem C8_hard_fail_no_http_substitution_witness :
    ¬ pyStrip "http://collector:4318" = "" ∧
    pyStrip (pyLower "grpc") = "grpc" ∧
    setup_otelproviders "http://collector:4318" "grpc" false true
      = Except.error "gRPC OTLP exporter imports failed. Install the necessary packages / system libs.Try installing libstdc++ (e.g. apt install libstdc++6) to enable gRPC." ∧
    setup_otelproviders "http://collector:4318" "grpc" false true
      ≠ Except.ok (SetupOutcome.providers Transport.http) := by
  have h := C8_hard_fail_no_http_substitution "http://collector:4318" "grpc"
    true (by decide) (by decide)
  exact ⟨by decide, by decide, h.1,
    h.2 (SetupOutcome.providers Transport.http)⟩
